import Mathlib

/-!
# taskbar_hide.cpp : a shallow embedding

The program keeps two globals (`taskbarHidden`, `taskbarWindow`) and talks to the
operating system through Win32 calls.  The embedding threads the globals through an
explicit `State`, records every Win32 call in `State.trace` (oldest call first), and
takes what the operating system answers (window lookups, key states, the result of the
next hook, the messages of the queue) as explicit arguments.

Handles are natural numbers with `0` for `NULL`.  The numeric values of the Win32
constants are those of the Windows SDK headers.
-/

namespace TaskbarHide

/-! ## Win32 types and constants -/

abbrev HWND := Nat
abbrev HHOOK := Nat
abbrev HMODULE := Nat
abbrev WPARAM := Nat
abbrev LPARAM := Int
abbrev LRESULT := Int
abbrev SHORT := Int
abbrev DWORD := Nat

def NULL : Nat := 0

def SW_HIDE : Nat := 0
def SW_SHOW : Nat := 5

def WM_KEYDOWN : Nat := 0x0100
def WM_KEYUP : Nat := 0x0101
def WM_SYSKEYDOWN : Nat := 0x0104
def WM_SYSKEYUP : Nat := 0x0105

def VK_F12 : Nat := 0x7B
def VK_LWIN : Nat := 0x5B
def VK_RWIN : Nat := 0x5C

def WH_KEYBOARD_LL : Nat := 13

def MB_OK : Nat := 0x00
def MB_ICONERROR : Nat := 0x10

/-- The structure a low-level keyboard hook receives through `lParam`. -/
structure KBDLLHOOKSTRUCT where
  vkCode : DWORD
  scanCode : DWORD
  flags : DWORD
  time : DWORD
  deriving DecidableEq, Repr

/-! ## Observable events -/

/-- One entry of the trace: a Win32 call with its arguments and, where the program
reads it, its result.  `enterToggleTaskbar` marks an entry into `ToggleTaskbar`. -/
inductive Event where
  | enterToggleTaskbar
  | FindWindowW (lpClassName : String) (result : HWND)
  | ShowWindow (hWnd : HWND) (nCmdShow : Nat)
  | GetAsyncKeyState (vKey : Nat) (result : SHORT)
  | CallNextHookEx (hhk : HHOOK) (nCode : Int) (wParam : WPARAM) (lParam : LPARAM)
      (result : LRESULT)
  | GetModuleHandle (result : HMODULE)
  | SetWindowsHookEx (idHook : Nat) (hmod : HMODULE) (dwThreadId : Nat) (result : HHOOK)
  | MessageBoxW (lpText : String) (lpCaption : String) (uType : Nat)
  | GetMessage (result : Int)
  | TranslateMessage
  | DispatchMessage
  | UnhookWindowsHookEx (hhk : HHOOK)
  deriving DecidableEq, Repr

/-! ## Program state -/

/-- The two globals of the program (lines 4-5) and the trace of calls made so far. -/
structure State where
  taskbarHidden : Bool
  taskbarWindow : HWND
  trace : List Event
  deriving DecidableEq, Repr

/-- The globals as initialised at lines 4-5, before any call. -/
def initialState : State :=
  { taskbarHidden := false, taskbarWindow := NULL, trace := [] }

/-- Append one event to the trace. -/
def State.emit (s : State) (e : Event) : State :=
  { s with trace := s.trace ++ [e] }

/-! ## ToggleTaskbar and HideTaskbarOnStartup -/

/-- Lines 14-20: the flip itself, once `taskbarWindow` is known. -/
def flipTaskbar (s : State) : State :=
  if s.taskbarHidden then
    { (s.emit (.ShowWindow s.taskbarWindow SW_SHOW)) with taskbarHidden := false }
  else
    { (s.emit (.ShowWindow s.taskbarWindow SW_HIDE)) with taskbarHidden := true }

/-- Lines 8-21.  `found` is what `FindWindowW` answers if this call makes the lookup. -/
def ToggleTaskbar (found : HWND) (s : State) : State :=
  let s0 := s.emit .enterToggleTaskbar
  if s0.taskbarWindow = NULL then
    let s1 : State :=
      { (s0.emit (.FindWindowW "Shell_TrayWnd" found)) with taskbarWindow := found }
    if s1.taskbarWindow = NULL then s1 else flipTaskbar s1
  else
    flipTaskbar s0

/-- Lines 24-30.  `found` is what `FindWindowW` answers. -/
def HideTaskbarOnStartup (found : HWND) (s : State) : State :=
  let s1 : State :=
    { (s.emit (.FindWindowW "Shell_TrayWnd" found)) with taskbarWindow := found }
  if s1.taskbarWindow ≠ NULL then
    { (s1.emit (.ShowWindow s1.taskbarWindow SW_HIDE)) with taskbarHidden := true }
  else
    s1

/-! ## KeyboardProc -/

/-- The test `x & 0x8000` on a `SHORT`: bit 15 of its 16-bit two's complement pattern
(integer promotion sign-extends, which leaves bit 15 as it is). -/
def keyPressed (x : SHORT) : Bool :=
  ((x % 65536).toNat &&& 0x8000) != 0

/-- What the operating system answers during one run of `KeyboardProc`: the structure
`lParam` points to, the two key states, the window lookup and the next hook's result.
An answer is only consumed if the corresponding call is made. -/
structure HookEnv where
  kbStruct : KBDLLHOOKSTRUCT
  lwin : SHORT
  rwin : SHORT
  found : HWND
  next : LRESULT
  deriving DecidableEq, Repr

/-- Lines 38-41: the hotkey test, with the short-circuit order of `&&` and `||`. -/
def hotkeyCheck (wParam : WPARAM) (env : HookEnv) (s : State) : State :=
  if wParam = WM_KEYDOWN then
    if env.kbStruct.vkCode = VK_F12 then
      let s1 := s.emit (.GetAsyncKeyState VK_LWIN env.lwin)
      if keyPressed env.lwin then
        ToggleTaskbar env.found s1
      else
        let s2 := s1.emit (.GetAsyncKeyState VK_RWIN env.rwin)
        if keyPressed env.rwin then ToggleTaskbar env.found s2 else s2
    else s
  else s

/-- Lines 33-45. -/
def KeyboardProc (nCode : Int) (wParam : WPARAM) (lParam : LPARAM) (env : HookEnv)
    (s : State) : LRESULT × State :=
  let s1 := if 0 ≤ nCode then hotkeyCheck wParam env s else s
  (env.next, s1.emit (.CallNextHookEx NULL nCode wParam lParam env.next))

/-! ## main -/

/-- One keyboard event the operating system hands to the installed hook. -/
structure KeyEvent where
  nCode : Int
  wParam : WPARAM
  lParam : LPARAM
  env : HookEnv
  deriving DecidableEq, Repr

/-- One call of `GetMessage`: the hook invocations the operating system makes on this
thread while the call is pending, and the value the call returns. -/
structure Pump where
  hookCalls : List KeyEvent
  result : Int
  deriving DecidableEq, Repr

/-- The answers of the operating system over a whole run of `main`.  `pumps` lists the
`GetMessage` calls that return.  If none of them returns 0, the next `GetMessage` never
returns, and `pending` lists the hook invocations made while it blocks. -/
structure MainEnv where
  found : HWND
  hModule : HMODULE
  hook : HHOOK
  pumps : List Pump
  pending : List KeyEvent
  deriving DecidableEq, Repr

/-- How a run of `main` ends: it returns an exit code, or it is still blocked in
`GetMessage` when the answers of the operating system run out. -/
inductive Outcome where
  | returned (code : Int) (s : State)
  | blocked (s : State)
  deriving DecidableEq, Repr

/-- Run the installed hook on each event in turn. -/
def deliver : List KeyEvent → State → State
  | [], s => s
  | k :: ks, s => deliver ks (KeyboardProc k.nCode k.wParam k.lParam k.env s).2

/-- Lines 62-65: the message loop.  The result pairs the state reached with `true` when
`GetMessage` returned 0 and the loop ended, and with `false` when the answers ran out
while the loop was still going. -/
def messageLoop (pending : List KeyEvent) : List Pump → State → State × Bool
  | [], s => (deliver pending s, false)
  | p :: ps, s =>
    let s1 := (deliver p.hookCalls s).emit (.GetMessage p.result)
    if p.result ≠ 0 then
      messageLoop pending ps ((s1.emit .TranslateMessage).emit .DispatchMessage)
    else
      (s1, true)

/-- Lines 47-69. -/
def main (env : MainEnv) : Outcome :=
  let s1 := HideTaskbarOnStartup env.found initialState
  let s2 := s1.emit (.GetModuleHandle env.hModule)
  let s3 := s2.emit (.SetWindowsHookEx WH_KEYBOARD_LL env.hModule 0 env.hook)
  if env.hook = NULL then
    .returned 1
      (s3.emit (.MessageBoxW "Failed to set keyboard hook" "Error" (MB_OK ||| MB_ICONERROR)))
  else
    match messageLoop env.pending env.pumps s3 with
    | (s4, true) => .returned 0 (s4.emit (.UnhookWindowsHookEx env.hook))
    | (s4, false) => .blocked s4

/-! ## Observations on traces -/

/-- Number of entries into `ToggleTaskbar` recorded in a trace. -/
def toggleCalls (t : List Event) : Nat :=
  t.count .enterToggleTaskbar

/-- The visibility commands of a trace, in order: target window and command. -/
def showCommands : List Event → List (HWND × Nat)
  | [] => []
  | .ShowWindow h c :: t => (h, c) :: showCommands t
  | _ :: t => showCommands t

/-- The most recent visibility command of a trace, if any. -/
def lastShowCommand (t : List Event) : Option (HWND × Nat) :=
  (showCommands t).getLast?

/-- Is the event a call of `CallNextHookEx`? -/
def Event.isCallNextHookEx : Event → Bool
  | .CallNextHookEx _ _ _ _ _ => true
  | _ => false

/-- Is the event a call of `GetMessage`? -/
def Event.isGetMessage : Event → Bool
  | .GetMessage _ => true
  | _ => false

/-- Is the event a call of `UnhookWindowsHookEx`? -/
def Event.isUnhook : Event → Bool
  | .UnhookWindowsHookEx _ => true
  | _ => false

/-- Is the event a call of `MessageBoxW`? -/
def Event.isMessageBox : Event → Bool
  | .MessageBoxW _ _ _ => true
  | _ => false

/-- The run the state-machine claims speak of: `HideTaskbarOnStartup` from the initial
state, then one `ToggleTaskbar` per element of `lookupsLater`, each element being what
`FindWindowW` answers should that call look the window up. -/
def startupThenToggles (foundAtStartup : HWND) (lookupsLater : List HWND) : State :=
  lookupsLater.foldl (fun s f => ToggleTaskbar f s)
    (HideTaskbarOnStartup foundAtStartup initialState)

/-! ## Basic facts about the operations -/

theorem showCommands_append (a b : List Event) :
    showCommands (a ++ b) = showCommands a ++ showCommands b := by
  induction a with
  | nil => rfl
  | cons e t ih => cases e <;> simp [showCommands, ih]

theorem toggleCalls_append (a b : List Event) :
    toggleCalls (a ++ b) = toggleCalls a + toggleCalls b := by
  simp [toggleCalls, List.count_append]

/-- With the window known, `ToggleTaskbar` makes no lookup and flips. -/
theorem ToggleTaskbar_resolved (f : HWND) (s : State) (h : s.taskbarWindow ≠ NULL) :
    ToggleTaskbar f s =
      { taskbarHidden := !s.taskbarHidden
        taskbarWindow := s.taskbarWindow
        trace := s.trace ++ [.enterToggleTaskbar,
          .ShowWindow s.taskbarWindow (if s.taskbarHidden then SW_SHOW else SW_HIDE)] } := by
  cases hh : s.taskbarHidden <;>
    simp [ToggleTaskbar, flipTaskbar, State.emit, h, hh]

/-- With the window unknown and the lookup failing, `ToggleTaskbar` only looks up. -/
theorem ToggleTaskbar_lookup_fails (s : State) (h : s.taskbarWindow = NULL) :
    ToggleTaskbar NULL s =
      { taskbarHidden := s.taskbarHidden
        taskbarWindow := NULL
        trace := s.trace ++ [.enterToggleTaskbar, .FindWindowW "Shell_TrayWnd" NULL] } := by
  simp [ToggleTaskbar, State.emit, h]

/-- With the window unknown and the lookup succeeding, `ToggleTaskbar` stores the
handle and flips. -/
theorem ToggleTaskbar_lookup_succeeds (f : HWND) (s : State) (h : s.taskbarWindow = NULL)
    (hf : f ≠ NULL) :
    ToggleTaskbar f s =
      { taskbarHidden := !s.taskbarHidden
        taskbarWindow := f
        trace := s.trace ++ [.enterToggleTaskbar, .FindWindowW "Shell_TrayWnd" f,
          .ShowWindow f (if s.taskbarHidden then SW_SHOW else SW_HIDE)] } := by
  cases hh : s.taskbarHidden <;>
    simp [ToggleTaskbar, flipTaskbar, State.emit, h, hf, hh]

/-- Any number of toggles on a known window keep the window and flip once per call. -/
theorem toggles_resolved (fs : List HWND) (s : State) (h : s.taskbarWindow ≠ NULL) :
    (fs.foldl (fun s f => ToggleTaskbar f s) s).taskbarWindow = s.taskbarWindow ∧
    (fs.foldl (fun s f => ToggleTaskbar f s) s).taskbarHidden =
      (if fs.length % 2 = 0 then s.taskbarHidden else !s.taskbarHidden) := by
  induction fs generalizing s with
  | nil => simp
  | cons f t ih =>
    have hs : (ToggleTaskbar f s).taskbarWindow ≠ NULL := by
      rw [ToggleTaskbar_resolved f s h]; exact h
    obtain ⟨h1, h2⟩ := ih (ToggleTaskbar f s) hs
    simp only [List.foldl_cons, List.length_cons]
    refine ⟨by rw [h1, ToggleTaskbar_resolved f s h], ?_⟩
    rw [h2, ToggleTaskbar_resolved f s h]
    rcases Nat.mod_two_eq_zero_or_one t.length with h0 | h0
    · have : (t.length + 1) % 2 = 1 := by omega
      simp [h0, this]
    · have : (t.length + 1) % 2 = 0 := by omega
      simp [h0, this]

/-- Toggles whose lookups all fail leave an unresolved state unresolved. -/
theorem toggles_unresolved (k : Nat) (s : State) (h : s.taskbarWindow = NULL) :
    ((List.replicate k NULL).foldl (fun s f => ToggleTaskbar f s) s).taskbarWindow = NULL ∧
    ((List.replicate k NULL).foldl (fun s f => ToggleTaskbar f s) s).taskbarHidden
      = s.taskbarHidden ∧
    showCommands ((List.replicate k NULL).foldl (fun s f => ToggleTaskbar f s) s).trace
      = showCommands s.trace := by
  induction k generalizing s with
  | zero => simp [h]
  | succ n ih =>
    have hs : (ToggleTaskbar NULL s).taskbarWindow = NULL := by
      rw [ToggleTaskbar_lookup_fails s h]
    obtain ⟨h1, h2, h3⟩ := ih (ToggleTaskbar NULL s) hs
    simp only [List.replicate_succ, List.foldl_cons]
    refine ⟨h1, ?_, ?_⟩
    · rw [h2, ToggleTaskbar_lookup_fails s h]
    · rw [h3, ToggleTaskbar_lookup_fails s h]
      simp [showCommands_append, showCommands]

/-- The link between `taskbarHidden` and the visibility commands issued so far: either
no window is known, nothing was issued and `taskbarHidden` is false, or the last
command went to `taskbarWindow` and is the one `taskbarHidden` stands for, all earlier
ones having gone to the same window. -/
def Consistent (s : State) : Prop :=
  (s.taskbarWindow = NULL ∧ s.taskbarHidden = false ∧ showCommands s.trace = []) ∨
  (s.taskbarWindow ≠ NULL ∧ ∃ pre : List (HWND × Nat),
    showCommands s.trace
      = pre ++ [(s.taskbarWindow, if s.taskbarHidden then SW_HIDE else SW_SHOW)] ∧
    ∀ c ∈ pre, c.1 = s.taskbarWindow)

theorem Consistent_startup (f : HWND) : Consistent (HideTaskbarOnStartup f initialState) := by
  by_cases hf : f = NULL
  · left
    simp [HideTaskbarOnStartup, State.emit, initialState, hf, showCommands]
  · right
    refine ⟨by simp [HideTaskbarOnStartup, State.emit, hf], [], ?_, by simp⟩
    simp [HideTaskbarOnStartup, State.emit, initialState, hf, showCommands]

theorem Consistent_toggle (f : HWND) (s : State) (h : Consistent s) :
    Consistent (ToggleTaskbar f s) := by
  rcases h with ⟨hw, hh, hc⟩ | ⟨hw, pre, hc, hpre⟩
  · by_cases hf : f = NULL
    · subst hf
      left
      rw [ToggleTaskbar_lookup_fails s hw]
      simp [hh, hc, showCommands_append, showCommands]
    · right
      rw [ToggleTaskbar_lookup_succeeds f s hw hf]
      refine ⟨hf, [], ?_, by simp⟩
      simp [hh, hc, showCommands_append, showCommands]
  · right
    rw [ToggleTaskbar_resolved f s hw]
    refine ⟨hw, showCommands s.trace, ?_, ?_⟩
    · cases hh : s.taskbarHidden <;> simp [showCommands_append, showCommands]
    · intro c hmem
      rw [hc] at hmem
      rcases List.mem_append.mp hmem with h1 | h1
      · exact hpre c h1
      · simp only [List.mem_singleton] at h1
        rw [h1]

theorem Consistent_reachable (f0 : HWND) (fs : List HWND) :
    Consistent (startupThenToggles f0 fs) := by
  unfold startupThenToggles
  induction fs using List.reverseRecOn with
  | nil => exact Consistent_startup f0
  | append_singleton t f ih =>
    rw [List.foldl_append]
    exact Consistent_toggle f _ ih

/-- What `Consistent` says about the most recent command. -/
theorem Consistent_last (s : State) (h : Consistent s) :
    (s.taskbarHidden = true ↔ lastShowCommand s.trace = some (s.taskbarWindow, SW_HIDE)) ∧
    (s.taskbarHidden = false ↔
      (lastShowCommand s.trace = some (s.taskbarWindow, SW_SHOW) ∨
        lastShowCommand s.trace = none)) ∧
    (∀ c ∈ showCommands s.trace, c.1 = s.taskbarWindow) := by
  rcases h with ⟨_, hh, hc⟩ | ⟨_, pre, hc, hpre⟩
  · simp [lastShowCommand, hh, hc]
  · refine ⟨?_, ?_, ?_⟩
    · cases hh : s.taskbarHidden <;>
        simp [lastShowCommand, hc, hh, SW_HIDE, SW_SHOW]
    · cases hh : s.taskbarHidden <;>
        simp [lastShowCommand, hc, hh, SW_HIDE, SW_SHOW]
    · intro c hmem
      rw [hc] at hmem
      rcases List.mem_append.mp hmem with h1 | h1
      · exact hpre c h1
      · simp only [List.mem_singleton] at h1
        rw [h1]

/-- One `ToggleTaskbar`, from any state: `taskbarHidden` changes exactly when one
command is issued, and the command is the one for the new value. -/
theorem ToggleTaskbar_step (f : HWND) (s : State) :
    ((ToggleTaskbar f s).taskbarHidden ≠ s.taskbarHidden →
      showCommands (ToggleTaskbar f s).trace
        = showCommands s.trace ++ [((ToggleTaskbar f s).taskbarWindow,
            if (ToggleTaskbar f s).taskbarHidden then SW_HIDE else SW_SHOW)]) ∧
    ((ToggleTaskbar f s).taskbarHidden = s.taskbarHidden →
      showCommands (ToggleTaskbar f s).trace = showCommands s.trace) := by
  by_cases hw : s.taskbarWindow = NULL
  · by_cases hf : f = NULL
    · subst hf
      rw [ToggleTaskbar_lookup_fails s hw]
      simp [showCommands_append, showCommands]
    · rw [ToggleTaskbar_lookup_succeeds f s hw hf]
      cases hh : s.taskbarHidden <;> simp [showCommands_append, showCommands]
  · rw [ToggleTaskbar_resolved f s hw]
    cases hh : s.taskbarHidden <;> simp [showCommands_append, showCommands]

/-! ## Facts about traces -/

theorem emit_trace (s : State) (e : Event) : (s.emit e).trace = s.trace ++ [e] := rfl

/-- What `ToggleTaskbar` appends: its entry mark, then only lookups and visibility
commands. -/
theorem ToggleTaskbar_trace (f : HWND) (s : State) :
    ∃ d : List Event, (ToggleTaskbar f s).trace = s.trace ++ .enterToggleTaskbar :: d ∧
      ∀ e ∈ d, (∃ r, e = .FindWindowW "Shell_TrayWnd" r) ∨ (∃ h c, e = .ShowWindow h c) := by
  by_cases hw : s.taskbarWindow = NULL
  · by_cases hf : f = NULL
    · subst hf
      exact ⟨[.FindWindowW "Shell_TrayWnd" NULL],
        by rw [ToggleTaskbar_lookup_fails s hw], by simp⟩
    · exact ⟨[.FindWindowW "Shell_TrayWnd" f,
          .ShowWindow f (if s.taskbarHidden then SW_SHOW else SW_HIDE)],
        by rw [ToggleTaskbar_lookup_succeeds f s hw hf], by simp⟩
  · exact ⟨[.ShowWindow s.taskbarWindow (if s.taskbarHidden then SW_SHOW else SW_HIDE)],
      by rw [ToggleTaskbar_resolved f s hw], by simp⟩

/-- The events the hotkey test of `KeyboardProc` can append. -/
def Event.isHotkeyEvent : Event → Bool
  | .enterToggleTaskbar => true
  | .FindWindowW _ _ => true
  | .ShowWindow _ _ => true
  | .GetAsyncKeyState _ _ => true
  | _ => false

/-- The condition under which `KeyboardProc` reaches line 40. -/
def hotkeyMatches (nCode : Int) (wParam : WPARAM) (env : HookEnv) : Prop :=
  0 ≤ nCode ∧ wParam = WM_KEYDOWN ∧ env.kbStruct.vkCode = VK_F12 ∧
    (keyPressed env.lwin = true ∨ keyPressed env.rwin = true)

instance (nCode : Int) (wParam : WPARAM) (env : HookEnv) :
    Decidable (hotkeyMatches nCode wParam env) := by
  unfold hotkeyMatches; infer_instance

theorem ToggleTaskbar_delta (f : HWND) (s : State) :
    ∃ d : List Event, (ToggleTaskbar f s).trace = s.trace ++ d ∧ toggleCalls d = 1 ∧
      ∀ e ∈ d, e.isHotkeyEvent = true := by
  obtain ⟨d, hd, hmem⟩ := ToggleTaskbar_trace f s
  refine ⟨.enterToggleTaskbar :: d, hd, ?_, ?_⟩
  · have : List.count Event.enterToggleTaskbar d = 0 := by
      rw [List.count_eq_zero]
      intro hin
      rcases hmem _ hin with ⟨r, hr⟩ | ⟨h, c, hc⟩
      · cases hr
      · cases hc
    simp [toggleCalls, this]
  · intro e he
    rcases List.mem_cons.mp he with h1 | h1
    · rw [h1]; rfl
    · rcases hmem e h1 with ⟨r, hr⟩ | ⟨h, c, hc⟩
      · rw [hr]; rfl
      · rw [hc]; rfl

/-- What the guarded block of `KeyboardProc` (lines 34-42) appends. -/
theorem hotkey_delta (nCode : Int) (wParam : WPARAM) (env : HookEnv) (s : State) :
    ∃ d : List Event,
      (if 0 ≤ nCode then hotkeyCheck wParam env s else s).trace = s.trace ++ d ∧
      toggleCalls d = (if hotkeyMatches nCode wParam env then 1 else 0) ∧
      (∀ e ∈ d, e.isHotkeyEvent = true) ∧
      (¬ hotkeyMatches nCode wParam env →
        (if 0 ≤ nCode then hotkeyCheck wParam env s else s).taskbarHidden = s.taskbarHidden ∧
        (if 0 ≤ nCode then hotkeyCheck wParam env s else s).taskbarWindow
          = s.taskbarWindow) := by
  by_cases hn : 0 ≤ nCode
  swap
  · exact ⟨[], by simp [hn], by simp [hotkeyMatches, hn, toggleCalls], by simp, by simp [hn]⟩
  by_cases hk : wParam = WM_KEYDOWN
  swap
  · exact ⟨[], by simp [hotkeyCheck, hk], by simp [hotkeyMatches, hk, toggleCalls], by simp,
      by simp [hotkeyCheck, hk]⟩
  by_cases hv : env.kbStruct.vkCode = VK_F12
  swap
  · exact ⟨[], by simp [hotkeyCheck, hv], by simp [hotkeyMatches, hv, toggleCalls], by simp,
      by simp [hotkeyCheck, hv]⟩
  by_cases hl : keyPressed env.lwin = true
  · obtain ⟨d, hd, hc, hmem⟩ :=
      ToggleTaskbar_delta env.found (s.emit (.GetAsyncKeyState VK_LWIN env.lwin))
    refine ⟨.GetAsyncKeyState VK_LWIN env.lwin :: d, ?_, ?_, ?_, ?_⟩
    · simp [hotkeyCheck, hn, hk, hv, hl, hd, emit_trace]
    · have : toggleCalls (.GetAsyncKeyState VK_LWIN env.lwin :: d) = toggleCalls d := by
        simp [toggleCalls]
      simp [this, hc, hotkeyMatches, hn, hk, hv, hl]
    · intro e he
      rcases List.mem_cons.mp he with h1 | h1
      · rw [h1]; rfl
      · exact hmem e h1
    · intro hno
      exact absurd ⟨hn, hk, hv, Or.inl hl⟩ hno
  by_cases hr : keyPressed env.rwin = true
  · obtain ⟨d, hd, hc, hmem⟩ :=
      ToggleTaskbar_delta env.found
        ((s.emit (.GetAsyncKeyState VK_LWIN env.lwin)).emit (.GetAsyncKeyState VK_RWIN env.rwin))
    refine ⟨.GetAsyncKeyState VK_LWIN env.lwin :: .GetAsyncKeyState VK_RWIN env.rwin :: d,
      ?_, ?_, ?_, ?_⟩
    · simp [hotkeyCheck, hn, hk, hv, hl, hr, hd, emit_trace]
    · have : toggleCalls
          (.GetAsyncKeyState VK_LWIN env.lwin :: .GetAsyncKeyState VK_RWIN env.rwin :: d)
            = toggleCalls d := by
        simp [toggleCalls]
      simp [this, hc, hotkeyMatches, hn, hk, hv, hr]
    · intro e he
      rcases List.mem_cons.mp he with h1 | h1
      · rw [h1]; rfl
      rcases List.mem_cons.mp h1 with h2 | h2
      · rw [h2]; rfl
      · exact hmem e h2
    · intro hno
      exact absurd ⟨hn, hk, hv, Or.inr hr⟩ hno
  · refine ⟨[.GetAsyncKeyState VK_LWIN env.lwin, .GetAsyncKeyState VK_RWIN env.rwin],
      ?_, ?_, ?_, ?_⟩
    · simp [hotkeyCheck, hn, hk, hv, hl, hr, emit_trace]
    · simp [toggleCalls, hotkeyMatches, hl, hr]
    · intro e he
      simp only [List.mem_cons, List.mem_singleton, List.not_mem_nil, or_false] at he
      rcases he with h1 | h1 <;> (rw [h1]; rfl)
    · intro _
      simp [hotkeyCheck, hn, hk, hv, hl, hr, State.emit]

/-- What one run of `KeyboardProc` appends: events of the hotkey test, then the call of
`CallNextHookEx`. -/
theorem KeyboardProc_delta (nCode : Int) (wParam : WPARAM) (lParam : LPARAM) (env : HookEnv)
    (s : State) :
    ∃ d : List Event,
      (KeyboardProc nCode wParam lParam env s).2.trace
        = s.trace ++ d ++ [.CallNextHookEx NULL nCode wParam lParam env.next] ∧
      toggleCalls d = (if hotkeyMatches nCode wParam env then 1 else 0) ∧
      (∀ e ∈ d, e.isHotkeyEvent = true) ∧
      (¬ hotkeyMatches nCode wParam env →
        (KeyboardProc nCode wParam lParam env s).2.taskbarHidden = s.taskbarHidden ∧
        (KeyboardProc nCode wParam lParam env s).2.taskbarWindow = s.taskbarWindow) := by
  obtain ⟨d, hd, hc, hmem, hsame⟩ := hotkey_delta nCode wParam env s
  refine ⟨d, ?_, hc, hmem, ?_⟩
  · simp only [KeyboardProc, emit_trace, hd]
  · intro hno
    simpa [KeyboardProc, State.emit] using hsame hno

/-- The events that can be appended while the message loop runs: everything except the
calls `main` makes outside the loop. -/
def Event.isLoopEvent : Event → Bool
  | .GetModuleHandle _ => false
  | .SetWindowsHookEx _ _ _ _ => false
  | .MessageBoxW _ _ _ => false
  | .UnhookWindowsHookEx _ => false
  | _ => true

theorem deliver_delta (ks : List KeyEvent) (s : State) :
    ∃ d : List Event, (deliver ks s).trace = s.trace ++ d ∧
      ∀ e ∈ d, e.isLoopEvent = true := by
  induction ks generalizing s with
  | nil => exact ⟨[], by simp [deliver], by simp⟩
  | cons k t ih =>
    obtain ⟨d1, hd1, _, hm1, _⟩ := KeyboardProc_delta k.nCode k.wParam k.lParam k.env s
    obtain ⟨d2, hd2, hm2⟩ := ih (KeyboardProc k.nCode k.wParam k.lParam k.env s).2
    refine ⟨d1 ++ [.CallNextHookEx NULL k.nCode k.wParam k.lParam k.env.next] ++ d2, ?_, ?_⟩
    · simp only [deliver, hd2, hd1, List.append_assoc]
    · intro e he
      rcases List.mem_append.mp he with h1 | h1
      · rcases List.mem_append.mp h1 with h2 | h2
        · have := hm1 e h2
          cases e <;> simp_all [Event.isHotkeyEvent, Event.isLoopEvent]
        · simp only [List.mem_singleton] at h2
          rw [h2]; rfl
      · exact hm2 e h1

/-- What the message loop appends, and when it ends. -/
theorem messageLoop_delta (pending : List KeyEvent) (ps : List Pump) (s : State) :
    ∃ d : List Event, (messageLoop pending ps s).1.trace = s.trace ++ d ∧
      (∀ e ∈ d, e.isLoopEvent = true) ∧
      ((messageLoop pending ps s).2 = true → ∃ d0, d = d0 ++ [.GetMessage 0]) ∧
      ((messageLoop pending ps s).2 = true ↔ ∃ p ∈ ps, p.result = 0) := by
  induction ps generalizing s with
  | nil =>
    obtain ⟨d, hd, hm⟩ := deliver_delta pending s
    exact ⟨d, by simpa [messageLoop] using hd, hm, by simp [messageLoop], by simp [messageLoop]⟩
  | cons p t ih =>
    obtain ⟨d1, hd1, hm1⟩ := deliver_delta p.hookCalls s
    by_cases hz : p.result = 0
    · refine ⟨d1 ++ [.GetMessage 0], ?_, ?_, ?_, ?_⟩
      · simp [messageLoop, hz, emit_trace, hd1]
      · intro e he
        rcases List.mem_append.mp he with h1 | h1
        · exact hm1 e h1
        · simp only [List.mem_singleton] at h1
          rw [h1]; rfl
      · intro _
        exact ⟨d1, rfl⟩
      · simp [messageLoop, hz]
    · obtain ⟨d2, hd2, hm2, hend, hiff⟩ :=
        ih ((((deliver p.hookCalls s).emit (.GetMessage p.result)).emit
          .TranslateMessage).emit .DispatchMessage)
      refine ⟨d1 ++ [.GetMessage p.result, .TranslateMessage, .DispatchMessage] ++ d2,
        ?_, ?_, ?_, ?_⟩
      · simp only [messageLoop, hz, ne_eq, not_false_eq_true, if_true, hd2, emit_trace, hd1,
          List.append_assoc, List.singleton_append, List.cons_append, List.nil_append]
      · intro e he
        rcases List.mem_append.mp he with h1 | h1
        · rcases List.mem_append.mp h1 with h2 | h2
          · exact hm1 e h2
          · simp only [List.mem_cons, List.mem_singleton, List.not_mem_nil, or_false] at h2
            rcases h2 with h3 | h3 | h3 <;> (rw [h3]; rfl)
        · exact hm2 e h1
      · intro hb
        have hb2 : (messageLoop pending t ((((deliver p.hookCalls s).emit
            (.GetMessage p.result)).emit .TranslateMessage).emit .DispatchMessage)).2
              = true := by
          simpa [messageLoop, hz] using hb
        obtain ⟨d0, hd0⟩ := hend hb2
        exact ⟨d1 ++ [.GetMessage p.result, .TranslateMessage, .DispatchMessage] ++ d0,
          by rw [hd0]; simp⟩
      · simp only [messageLoop, hz, ne_eq, not_false_eq_true, if_true, hiff, List.mem_cons,
          exists_eq_or_imp, false_or]

/-- The calls `main` makes before it tests the hook handle (lines 49-53). -/
def mainSetup (env : MainEnv) : State :=
  ((HideTaskbarOnStartup env.found initialState).emit (.GetModuleHandle env.hModule)).emit
    (.SetWindowsHookEx WH_KEYBOARD_LL env.hModule 0 env.hook)

theorem mainSetup_trace (env : MainEnv) :
    (mainSetup env).trace.filter Event.isUnhook = [] ∧
    (mainSetup env).trace.filter Event.isMessageBox = [] ∧
    (mainSetup env).trace.filter Event.isGetMessage = [] := by
  by_cases hf : env.found = NULL <;>
    simp [mainSetup, HideTaskbarOnStartup, State.emit, initialState, hf, Event.isUnhook,
      Event.isMessageBox, Event.isGetMessage]

theorem main_hook_fails (env : MainEnv) (h : env.hook = NULL) :
    main env = .returned 1 ((mainSetup env).emit
      (.MessageBoxW "Failed to set keyboard hook" "Error" (MB_OK ||| MB_ICONERROR))) := by
  simp [main, mainSetup, h]

theorem main_hook_installed (env : MainEnv) (h : env.hook ≠ NULL) :
    main env =
      (if (messageLoop env.pending env.pumps (mainSetup env)).2 = true then
        .returned 0 ((messageLoop env.pending env.pumps (mainSetup env)).1.emit
          (.UnhookWindowsHookEx env.hook))
      else .blocked (messageLoop env.pending env.pumps (mainSetup env)).1) := by
  simp only [main, mainSetup, h, if_false]
  rcases hm : messageLoop env.pending env.pumps
    (((HideTaskbarOnStartup env.found initialState).emit (.GetModuleHandle env.hModule)).emit
      (.SetWindowsHookEx WH_KEYBOARD_LL env.hModule 0 env.hook)) with ⟨s4, b⟩
  cases b <;> simp

/-! ## The claims -/

/-- C1: from the initial state, when `HideTaskbarOnStartup` finds the taskbar window,
`taskbarHidden` is true right afterwards, and after `n` further calls of `ToggleTaskbar`
it equals "`n` is even": true for 0, false after one toggle, true again after two. -/
theorem C1_hidden_alternates (w : HWND) (hw : w ≠ NULL) :
    (HideTaskbarOnStartup w initialState).taskbarHidden = true ∧
    (∀ (n : Nat) (fs : List HWND), fs.length = n →
      (startupThenToggles w fs).taskbarHidden = decide (n % 2 = 0)) ∧
    (∀ f1 f2 : HWND,
      (startupThenToggles w []).taskbarHidden = true ∧
      (startupThenToggles w [f1]).taskbarHidden = false ∧
      (startupThenToggles w [f1, f2]).taskbarHidden = true) := by
  have h0 : (HideTaskbarOnStartup w initialState).taskbarHidden = true := by
    simp [HideTaskbarOnStartup, State.emit, hw]
  have hw0 : (HideTaskbarOnStartup w initialState).taskbarWindow ≠ NULL := by
    simp [HideTaskbarOnStartup, State.emit, hw]
  have hall : ∀ (n : Nat) (fs : List HWND), fs.length = n →
      (startupThenToggles w fs).taskbarHidden = decide (n % 2 = 0) := by
    intro n fs hn
    have := (toggles_resolved fs _ hw0).2
    rw [startupThenToggles, this, h0, hn]
    by_cases hp : n % 2 = 0 <;> simp [hp]
  refine ⟨h0, hall, fun f1 f2 => ⟨?_, ?_, ?_⟩⟩
  · simpa using hall 0 [] rfl
  · simpa using hall 1 [f1] rfl
  · simpa using hall 2 [f1, f2] rfl

/-- C1, at the window handle 1. -/
theorem C1_hidden_alternates_witness :
    (1 : HWND) ≠ NULL ∧
    (HideTaskbarOnStartup 1 initialState).taskbarHidden = true ∧
    (∀ (n : Nat) (fs : List HWND), fs.length = n →
      (startupThenToggles 1 fs).taskbarHidden = decide (n % 2 = 0)) ∧
    (∀ f1 f2 : HWND,
      (startupThenToggles 1 []).taskbarHidden = true ∧
      (startupThenToggles 1 [f1]).taskbarHidden = false ∧
      (startupThenToggles 1 [f1, f2]).taskbarHidden = true) :=
  ⟨by decide, C1_hidden_alternates 1 (by decide)⟩

/-- C2: in every state reached from the initial state by one `HideTaskbarOnStartup` and
then any finite sequence of `ToggleTaskbar` calls, whatever the lookups answer,
`taskbarHidden` is true exactly when the most recent `ShowWindow` command to the taskbar
window was `SW_HIDE`, and false exactly when it was `SW_SHOW` or none was issued; every
command went to `taskbarWindow`; and each operation changes `taskbarHidden` exactly when
it issues one command, which is the one matching the new value. -/
theorem C2_hidden_reflects_last_command :
    (∀ (f0 : HWND) (fs : List HWND),
      ((startupThenToggles f0 fs).taskbarHidden = true ↔
        lastShowCommand (startupThenToggles f0 fs).trace
          = some ((startupThenToggles f0 fs).taskbarWindow, SW_HIDE)) ∧
      ((startupThenToggles f0 fs).taskbarHidden = false ↔
        (lastShowCommand (startupThenToggles f0 fs).trace
          = some ((startupThenToggles f0 fs).taskbarWindow, SW_SHOW) ∨
         lastShowCommand (startupThenToggles f0 fs).trace = none)) ∧
      (∀ c ∈ showCommands (startupThenToggles f0 fs).trace,
        c.1 = (startupThenToggles f0 fs).taskbarWindow)) ∧
    (∀ (f : HWND) (s : State),
      ((ToggleTaskbar f s).taskbarHidden ≠ s.taskbarHidden →
        showCommands (ToggleTaskbar f s).trace
          = showCommands s.trace ++ [((ToggleTaskbar f s).taskbarWindow,
              if (ToggleTaskbar f s).taskbarHidden then SW_HIDE else SW_SHOW)]) ∧
      ((ToggleTaskbar f s).taskbarHidden = s.taskbarHidden →
        showCommands (ToggleTaskbar f s).trace = showCommands s.trace)) ∧
    (∀ f : HWND,
      ((HideTaskbarOnStartup f initialState).taskbarHidden ≠ initialState.taskbarHidden →
        showCommands (HideTaskbarOnStartup f initialState).trace
          = [((HideTaskbarOnStartup f initialState).taskbarWindow, SW_HIDE)]) ∧
      ((HideTaskbarOnStartup f initialState).taskbarHidden = initialState.taskbarHidden →
        showCommands (HideTaskbarOnStartup f initialState).trace = [])) := by
  refine ⟨fun f0 fs => Consistent_last _ (Consistent_reachable f0 fs),
    fun f s => ToggleTaskbar_step f s, fun f => ?_⟩
  by_cases hf : f = NULL <;>
    simp [HideTaskbarOnStartup, State.emit, initialState, hf, showCommands]

/-- C3: for every `nCode`, `wParam`, `lParam`, every answer of the operating system and
every state, `KeyboardProc` calls `CallNextHookEx` exactly once, as the last thing it
does, with the `nCode`, `wParam` and `lParam` it received, and returns the result of
that call, whether or not the hotkey matched. -/
theorem C3_always_forwards (nCode : Int) (wParam : WPARAM) (lParam : LPARAM) (env : HookEnv)
    (s : State) :
    (KeyboardProc nCode wParam lParam env s).1 = env.next ∧
    ∃ d : List Event,
      (KeyboardProc nCode wParam lParam env s).2.trace
        = s.trace ++ d ++ [.CallNextHookEx NULL nCode wParam lParam env.next] ∧
      ∀ e ∈ d, e.isCallNextHookEx = false := by
  obtain ⟨d, hd, _, hmem, _⟩ := KeyboardProc_delta nCode wParam lParam env s
  refine ⟨rfl, d, hd, fun e he => ?_⟩
  have := hmem e he
  cases e <;> simp_all [Event.isHotkeyEvent, Event.isCallNextHookEx]

/-- C4: `KeyboardProc` enters `ToggleTaskbar` only if the message is `WM_KEYDOWN`, the
key code is `VK_F12` and `GetAsyncKeyState` reports bit 0x8000 for `VK_LWIN` or
`VK_RWIN` (and `nCode` is not negative).  So a message other than `WM_KEYDOWN`, a key
release in particular, never toggles, whatever the key code and the key states, and
neither does any event with both Windows keys reported up: the globals stay as they
were. -/
theorem C4_toggle_only_on_hotkey (nCode : Int) (wParam : WPARAM) (lParam : LPARAM)
    (env : HookEnv) (s : State) :
    (toggleCalls (KeyboardProc nCode wParam lParam env s).2.trace ≠ toggleCalls s.trace →
      0 ≤ nCode ∧ wParam = WM_KEYDOWN ∧ env.kbStruct.vkCode = VK_F12 ∧
        (keyPressed env.lwin = true ∨ keyPressed env.rwin = true)) ∧
    (wParam ≠ WM_KEYDOWN →
      toggleCalls (KeyboardProc nCode wParam lParam env s).2.trace = toggleCalls s.trace ∧
      (KeyboardProc nCode wParam lParam env s).2.taskbarHidden = s.taskbarHidden ∧
      (KeyboardProc nCode wParam lParam env s).2.taskbarWindow = s.taskbarWindow) ∧
    ((wParam = WM_KEYUP ∨ wParam = WM_SYSKEYUP) →
      toggleCalls (KeyboardProc nCode wParam lParam env s).2.trace = toggleCalls s.trace ∧
      (KeyboardProc nCode wParam lParam env s).2.taskbarHidden = s.taskbarHidden ∧
      (KeyboardProc nCode wParam lParam env s).2.taskbarWindow = s.taskbarWindow) ∧
    (keyPressed env.lwin = false → keyPressed env.rwin = false →
      toggleCalls (KeyboardProc nCode wParam lParam env s).2.trace = toggleCalls s.trace ∧
      (KeyboardProc nCode wParam lParam env s).2.taskbarHidden = s.taskbarHidden ∧
      (KeyboardProc nCode wParam lParam env s).2.taskbarWindow = s.taskbarWindow) := by
  obtain ⟨d, hd, hc, _, hsame⟩ := KeyboardProc_delta nCode wParam lParam env s
  have hcount : toggleCalls (KeyboardProc nCode wParam lParam env s).2.trace
      = toggleCalls s.trace + (if hotkeyMatches nCode wParam env then 1 else 0) := by
    rw [hd, toggleCalls_append, toggleCalls_append, hc]
    simp [toggleCalls]
  have hno : ¬ hotkeyMatches nCode wParam env →
      toggleCalls (KeyboardProc nCode wParam lParam env s).2.trace = toggleCalls s.trace ∧
      (KeyboardProc nCode wParam lParam env s).2.taskbarHidden = s.taskbarHidden ∧
      (KeyboardProc nCode wParam lParam env s).2.taskbarWindow = s.taskbarWindow := by
    intro h
    exact ⟨by rw [hcount, if_neg h]; rfl, hsame h⟩
  refine ⟨?_, ?_, ?_, ?_⟩
  · intro hne
    by_contra hm
    exact hne (hno hm).1
  · intro hk
    exact hno (fun hm => hk hm.2.1)
  · intro hk
    refine hno (fun hm => ?_)
    have h1 := hm.2.1
    rcases hk with h2 | h2 <;> rw [h2] at h1 <;> revert h1 <;> decide
  · intro hl hr
    refine hno (fun hm => ?_)
    rcases hm.2.2.2 with h | h
    · rw [hl] at h; cases h
    · rw [hr] at h; cases h

/-- A Win+F12 press as the operating system reports it: key code `VK_F12`, the left
Windows key down, the taskbar window present under the handle 1. -/
def winF12 : HookEnv :=
  { kbStruct := { vkCode := VK_F12, scanCode := 0x58, flags := 0, time := 0 }
    lwin := -32768
    rwin := 0
    found := 1
    next := 0 }

/-- C5 as stated fails: with F12 going down and the left Windows key reported pressed,
`KeyboardProc` does not enter `ToggleTaskbar` when `nCode` is negative, nor when the
key-down message is `WM_SYSKEYDOWN`; so the three conditions alone do not everywhere
lead to a toggle. -/
theorem C5_counterexample :
    winF12.kbStruct.vkCode = VK_F12 ∧ keyPressed winF12.lwin = true ∧
    toggleCalls (KeyboardProc (-1) WM_KEYDOWN 0 winF12 initialState).2.trace = 0 ∧
    (KeyboardProc (-1) WM_KEYDOWN 0 winF12 initialState).2.taskbarHidden = false ∧
    toggleCalls (KeyboardProc 0 WM_SYSKEYDOWN 0 winF12 initialState).2.trace = 0 ∧
    (KeyboardProc 0 WM_SYSKEYDOWN 0 winF12 initialState).2.taskbarHidden = false ∧
    ¬ (∀ (nCode : Int) (wParam : WPARAM) (lParam : LPARAM) (env : HookEnv) (s : State),
        (wParam = WM_KEYDOWN ∨ wParam = WM_SYSKEYDOWN) →
        env.kbStruct.vkCode = VK_F12 →
        (keyPressed env.lwin = true ∨ keyPressed env.rwin = true) →
        toggleCalls (KeyboardProc nCode wParam lParam env s).2.trace
          = toggleCalls s.trace + 1) := by
  refine ⟨by decide, by decide, by decide, by decide, by decide, by decide, fun h => ?_⟩
  have := h (-1) WM_KEYDOWN 0 winF12 initialState (Or.inl rfl) (by decide)
    (Or.inl (by decide))
  revert this
  decide

/-- C5, amended: `KeyboardProc` enters `ToggleTaskbar` exactly once when `nCode` is not
negative, the message is `WM_KEYDOWN`, the key code is `VK_F12` and `GetAsyncKeyState`
reports bit 0x8000 for `VK_LWIN` or `VK_RWIN`, and not at all otherwise: the filter is
these four conditions and no other.  The press `winF12`, delivered with `nCode` 0 as
`WM_KEYDOWN` in the initial state, is such an event: one toggle, taskbar hidden. -/
theorem C5_toggle_once_on_hotkey (nCode : Int) (wParam : WPARAM) (lParam : LPARAM)
    (env : HookEnv) (s : State) :
    toggleCalls (KeyboardProc nCode wParam lParam env s).2.trace
      = toggleCalls s.trace +
        (if 0 ≤ nCode ∧ wParam = WM_KEYDOWN ∧ env.kbStruct.vkCode = VK_F12 ∧
            (keyPressed env.lwin = true ∨ keyPressed env.rwin = true) then 1 else 0) ∧
    toggleCalls (KeyboardProc 0 WM_KEYDOWN 0 winF12 initialState).2.trace = 1 ∧
    (KeyboardProc 0 WM_KEYDOWN 0 winF12 initialState).2.taskbarHidden = true := by
  obtain ⟨d, hd, hc, _, _⟩ := KeyboardProc_delta nCode wParam lParam env s
  refine ⟨?_, by decide, by decide⟩
  rw [hd, toggleCalls_append, toggleCalls_append, hc]
  simp [toggleCalls, hotkeyMatches]

/-- C6: in every state with `taskbarWindow` NULL, a `ToggleTaskbar` whose lookup fails
only looks the window up: it issues no `ShowWindow` command, leaves `taskbarHidden`
and `taskbarWindow` as they were, and returns; the next `ToggleTaskbar` makes the
lookup again. -/
theorem C6_failed_lookup_is_noop (s : State) (h : s.taskbarWindow = NULL) :
    (ToggleTaskbar NULL s).trace
      = s.trace ++ [.enterToggleTaskbar, .FindWindowW "Shell_TrayWnd" NULL] ∧
    showCommands (ToggleTaskbar NULL s).trace = showCommands s.trace ∧
    (ToggleTaskbar NULL s).taskbarHidden = s.taskbarHidden ∧
    (ToggleTaskbar NULL s).taskbarWindow = s.taskbarWindow ∧
    (∀ f : HWND, ∃ d : List Event,
      (ToggleTaskbar f (ToggleTaskbar NULL s)).trace
        = (ToggleTaskbar NULL s).trace
            ++ .enterToggleTaskbar :: .FindWindowW "Shell_TrayWnd" f :: d) := by
  rw [ToggleTaskbar_lookup_fails s h]
  refine ⟨rfl, by simp [showCommands_append, showCommands], rfl, h.symm, fun f => ?_⟩
  by_cases hf : f = NULL
  · subst hf
    exact ⟨[], by rw [ToggleTaskbar_lookup_fails _ rfl]⟩
  · exact ⟨[.ShowWindow f (if s.taskbarHidden then SW_SHOW else SW_HIDE)],
      by rw [ToggleTaskbar_lookup_succeeds f _ rfl hf]⟩

/-- C6, at the initial state. -/
theorem C6_failed_lookup_is_noop_witness :
    initialState.taskbarWindow = NULL ∧
    (ToggleTaskbar NULL initialState).trace
      = initialState.trace ++ [.enterToggleTaskbar, .FindWindowW "Shell_TrayWnd" NULL] ∧
    showCommands (ToggleTaskbar NULL initialState).trace = showCommands initialState.trace ∧
    (ToggleTaskbar NULL initialState).taskbarHidden = initialState.taskbarHidden ∧
    (ToggleTaskbar NULL initialState).taskbarWindow = initialState.taskbarWindow ∧
    (∀ f : HWND, ∃ d : List Event,
      (ToggleTaskbar f (ToggleTaskbar NULL initialState)).trace
        = (ToggleTaskbar NULL initialState).trace
            ++ .enterToggleTaskbar :: .FindWindowW "Shell_TrayWnd" f :: d) :=
  ⟨rfl, C6_failed_lookup_is_noop initialState rfl⟩

/-- C7: from the initial state, when `FindWindowW` returns NULL, `HideTaskbarOnStartup`
makes the lookup and nothing else: no `ShowWindow` command, no error dialog,
`taskbarHidden` still false and `taskbarWindow` still NULL. -/
theorem C7_startup_without_taskbar :
    HideTaskbarOnStartup NULL initialState
      = { taskbarHidden := false, taskbarWindow := NULL,
          trace := [.FindWindowW "Shell_TrayWnd" NULL] } ∧
    showCommands (HideTaskbarOnStartup NULL initialState).trace = [] ∧
    (HideTaskbarOnStartup NULL initialState).trace.filter Event.isMessageBox = [] ∧
    (HideTaskbarOnStartup NULL initialState).taskbarHidden = false ∧
    (HideTaskbarOnStartup NULL initialState).taskbarWindow = NULL := by
  decide

/-- C8: after a startup that did not find the taskbar window and `k` toggles whose
lookups failed too, nothing has been issued and the state is unresolved; the first
`ToggleTaskbar` whose lookup succeeds stores the handle, issues `SW_HIDE` to it and
sets `taskbarHidden`: over the whole run the only visibility command is that one
`SW_HIDE`, so the state goes from unresolved to hidden directly. -/
theorem C8_first_successful_lookup_hides (k : Nat) (w : HWND) (hw : w ≠ NULL) :
    (startupThenToggles NULL (List.replicate k NULL)).taskbarWindow = NULL ∧
    (startupThenToggles NULL (List.replicate k NULL)).taskbarHidden = false ∧
    showCommands (startupThenToggles NULL (List.replicate k NULL)).trace = [] ∧
    startupThenToggles NULL (List.replicate k NULL ++ [w])
      = ToggleTaskbar w (startupThenToggles NULL (List.replicate k NULL)) ∧
    (startupThenToggles NULL (List.replicate k NULL ++ [w])).trace
      = (startupThenToggles NULL (List.replicate k NULL)).trace
          ++ [.enterToggleTaskbar, .FindWindowW "Shell_TrayWnd" w, .ShowWindow w SW_HIDE] ∧
    (startupThenToggles NULL (List.replicate k NULL ++ [w])).taskbarWindow = w ∧
    (startupThenToggles NULL (List.replicate k NULL ++ [w])).taskbarHidden = true ∧
    showCommands (startupThenToggles NULL (List.replicate k NULL ++ [w])).trace
      = [(w, SW_HIDE)] := by
  have hstart : (HideTaskbarOnStartup NULL initialState).taskbarWindow = NULL := by decide
  obtain ⟨h1, h2, h3⟩ := toggles_unresolved k (HideTaskbarOnStartup NULL initialState) hstart
  have h2b : (startupThenToggles NULL (List.replicate k NULL)).taskbarHidden = false := by
    rw [startupThenToggles, h2]; decide
  have h3b : showCommands (startupThenToggles NULL (List.replicate k NULL)).trace = [] := by
    rw [startupThenToggles, h3]; decide
  have hstep : startupThenToggles NULL (List.replicate k NULL ++ [w])
      = ToggleTaskbar w (startupThenToggles NULL (List.replicate k NULL)) := by
    simp [startupThenToggles, List.foldl_append]
  have h1b : (startupThenToggles NULL (List.replicate k NULL)).taskbarWindow = NULL := h1
  have hafter := ToggleTaskbar_lookup_succeeds w _ h1b hw
  rw [h2b] at hafter
  refine ⟨h1b, h2b, h3b, hstep, ?_, ?_, ?_, ?_⟩ <;> rw [hstep, hafter]
  · simp
  · simp
  · simp [showCommands_append, showCommands, h3b]

/-- C8, with two failed toggles before the window appears under the handle 1. -/
theorem C8_first_successful_lookup_hides_witness :
    (1 : HWND) ≠ NULL ∧
    (startupThenToggles NULL (List.replicate 2 NULL)).taskbarWindow = NULL ∧
    (startupThenToggles NULL (List.replicate 2 NULL)).taskbarHidden = false ∧
    showCommands (startupThenToggles NULL (List.replicate 2 NULL)).trace = [] ∧
    startupThenToggles NULL (List.replicate 2 NULL ++ [1])
      = ToggleTaskbar 1 (startupThenToggles NULL (List.replicate 2 NULL)) ∧
    (startupThenToggles NULL (List.replicate 2 NULL ++ [1])).trace
      = (startupThenToggles NULL (List.replicate 2 NULL)).trace
          ++ [.enterToggleTaskbar, .FindWindowW "Shell_TrayWnd" 1, .ShowWindow 1 SW_HIDE] ∧
    (startupThenToggles NULL (List.replicate 2 NULL ++ [1])).taskbarWindow = 1 ∧
    (startupThenToggles NULL (List.replicate 2 NULL ++ [1])).taskbarHidden = true ∧
    showCommands (startupThenToggles NULL (List.replicate 2 NULL ++ [1])).trace
      = [(1, SW_HIDE)] :=
  ⟨by decide, C8_first_successful_lookup_hides 2 1 (by decide)⟩

/-- C9: `main` returns 1 exactly when `SetWindowsHookEx` returns NULL.  In that case it
shows the error dialog once, as its last call, and the run contains no `GetMessage` and
no `UnhookWindowsHookEx`.  When the hook is installed, `main` returns only with code 0,
and then the last two calls of the run are the `GetMessage` that returned 0 and
`UnhookWindowsHookEx` on the installed hook, the only unhook of the run, with no dialog
shown; it does return 0 as soon as some `GetMessage` returns 0, and stays blocked,
the hook still installed, when none does. -/
theorem C9_exit_codes (env : MainEnv) :
    ((∃ s, main env = .returned 1 s) ↔ env.hook = NULL) ∧
    (env.hook = NULL → ∃ s, main env = .returned 1 s ∧
      s.trace.getLast?
        = some (.MessageBoxW "Failed to set keyboard hook" "Error" (MB_OK ||| MB_ICONERROR)) ∧
      (s.trace.filter Event.isMessageBox).length = 1 ∧
      s.trace.filter Event.isGetMessage = [] ∧
      s.trace.filter Event.isUnhook = []) ∧
    (env.hook ≠ NULL → ∀ (code : Int) (s : State), main env = .returned code s →
      code = 0 ∧
      (∃ pre : List Event,
        s.trace = pre ++ [.GetMessage 0, .UnhookWindowsHookEx env.hook] ∧
        pre.filter Event.isUnhook = []) ∧
      s.trace.filter Event.isMessageBox = []) ∧
    (env.hook ≠ NULL → ((∃ s, main env = .returned 0 s) ↔ ∃ p ∈ env.pumps, p.result = 0)) ∧
    (env.hook ≠ NULL → (∀ p ∈ env.pumps, p.result ≠ 0) →
      ∃ s, main env = .blocked s ∧ s.trace.filter Event.isUnhook = []) := by
  obtain ⟨hu, hb, hg⟩ := mainSetup_trace env
  obtain ⟨d, hd, hloop, hend, hiff⟩ := messageLoop_delta env.pending env.pumps (mainSetup env)
  have hdu : d.filter Event.isUnhook = [] := by
    rw [List.filter_eq_nil_iff]
    intro e he
    have := hloop e he
    cases e <;> simp_all [Event.isLoopEvent, Event.isUnhook]
  have hdb : d.filter Event.isMessageBox = [] := by
    rw [List.filter_eq_nil_iff]
    intro e he
    have := hloop e he
    cases e <;> simp_all [Event.isLoopEvent, Event.isMessageBox]
  have hinst : env.hook ≠ NULL → ∀ (code : Int) (s : State), main env = .returned code s →
      code = 0 ∧ (messageLoop env.pending env.pumps (mainSetup env)).2 = true ∧
      s = (messageLoop env.pending env.pumps (mainSetup env)).1.emit
        (.UnhookWindowsHookEx env.hook) := by
    intro hh code s hm
    rw [main_hook_installed env hh] at hm
    by_cases hb2 : (messageLoop env.pending env.pumps (mainSetup env)).2 = true
    · rw [if_pos hb2] at hm
      injection hm with hc hs
      exact ⟨hc.symm, hb2, hs.symm⟩
    · rw [if_neg hb2] at hm
      cases hm
  refine ⟨⟨?_, ?_⟩, ?_, ?_, ?_, ?_⟩
  · rintro ⟨s, hs⟩
    by_contra hh
    have := (hinst hh 1 s hs).1
    omega
  · intro hh
    exact ⟨_, main_hook_fails env hh⟩
  · intro hh
    refine ⟨_, main_hook_fails env hh, ?_, ?_, ?_, ?_⟩
    · simp [emit_trace]
    · simp [emit_trace, List.filter_append, hb, Event.isMessageBox]
    · simp [emit_trace, List.filter_append, hg, Event.isGetMessage]
    · simp [emit_trace, List.filter_append, hu, Event.isUnhook]
  · intro hh code s hm
    obtain ⟨hc, hb2, hs⟩ := hinst hh code s hm
    obtain ⟨d0, hd0⟩ := hend hb2
    refine ⟨hc, ⟨(mainSetup env).trace ++ d0, ?_, ?_⟩, ?_⟩
    · rw [hs, emit_trace, hd, hd0]; simp
    · have : d0.filter Event.isUnhook = [] := by
        rw [hd0, List.filter_append] at hdu
        exact (List.append_eq_nil.mp hdu).1
      simp [List.filter_append, hu, this]
    · rw [hs, emit_trace, hd]
      simp [List.filter_append, hb, hdb, Event.isMessageBox]
  · intro hh
    rw [← hiff]
    constructor
    · rintro ⟨s, hs⟩
      exact (hinst hh 0 s hs).2.1
    · intro hb2
      exact ⟨_, by rw [main_hook_installed env hh, if_pos hb2]⟩
  · intro hh hnz
    have hb2 : ¬ (messageLoop env.pending env.pumps (mainSetup env)).2 = true := by
      rw [hiff]
      rintro ⟨p, hp, hz⟩
      exact hnz p hp hz
    refine ⟨_, by rw [main_hook_installed env hh, if_neg hb2], ?_⟩
    rw [hd]
    simp [List.filter_append, hu, hdu]

/-- A run in which the taskbar window exists under the handle 1 and the hook cannot be
installed. -/
def hookRefused : MainEnv :=
  { found := 1, hModule := 0x400000, hook := NULL, pumps := [], pending := [] }

/-- C10: when the taskbar window is found and `SetWindowsHookEx` then fails, the run of
`main` is the lookup, one `SW_HIDE`, the attempt to install the hook, and the error
dialog, in this order: the only visibility command of the run is that `SW_HIDE`, and
`main` returns 1 with `taskbarHidden` true and no hook installed. -/
theorem C10_hidden_when_hook_fails (env : MainEnv) (hf : env.found ≠ NULL)
    (hh : env.hook = NULL) :
    ∃ s, main env = .returned 1 s ∧
      s.taskbarHidden = true ∧
      s.taskbarWindow = env.found ∧
      showCommands s.trace = [(env.found, SW_HIDE)] ∧
      s.trace =
        [.FindWindowW "Shell_TrayWnd" env.found,
         .ShowWindow env.found SW_HIDE,
         .GetModuleHandle env.hModule,
         .SetWindowsHookEx WH_KEYBOARD_LL env.hModule 0 NULL,
         .MessageBoxW "Failed to set keyboard hook" "Error" (MB_OK ||| MB_ICONERROR)] := by
  refine ⟨_, main_hook_fails env hh, ?_, ?_, ?_, ?_⟩ <;>
    simp [mainSetup, HideTaskbarOnStartup, State.emit, initialState, hf, hh, showCommands]

/-- C10, at the run `hookRefused`. -/
theorem C10_hidden_when_hook_fails_witness :
    hookRefused.found ≠ NULL ∧ hookRefused.hook = NULL ∧
    ∃ s, main hookRefused = .returned 1 s ∧
      s.taskbarHidden = true ∧
      s.taskbarWindow = hookRefused.found ∧
      showCommands s.trace = [(hookRefused.found, SW_HIDE)] ∧
      s.trace =
        [.FindWindowW "Shell_TrayWnd" hookRefused.found,
         .ShowWindow hookRefused.found SW_HIDE,
         .GetModuleHandle hookRefused.hModule,
         .SetWindowsHookEx WH_KEYBOARD_LL hookRefused.hModule 0 NULL,
         .MessageBoxW "Failed to set keyboard hook" "Error" (MB_OK ||| MB_ICONERROR)] :=
  ⟨by decide, rfl, C10_hidden_when_hook_fails hookRefused (by decide) rfl⟩

end TaskbarHide
